import Mathlib

/-!
Verification of the jabberCommander XMPP bot (src/commander.py).

The development shallowly embeds the bot's pure computation paths:

* a JSON value model with Python truthiness and dict-get semantics, used by
  the per-source listing normalizers inside handle_command_live;
* the stable descending sort by viewer count (Python's sorted with a
  viewers key and reverse=True is a stable sort; the embedding uses an
  insertion sort, via foldr, which is the unique stable sort for that key);
* the per-source summary formatter (banner sentence selection by stream
  count, capped item list, plain and XHTML bodies built the way the two
  StringIO buffers are filled);
* the !now handler including the UTC calendar rendering and the
  US/Pacific conversion (the tz rule is the IANA rule for US/Pacific in
  effect since 2007, consumed by the source through the external pytz
  library);
* the message dispatch in handle_muc_message with the self-message and
  command-marker filters;
* the emission trace of a !live invocation: sends and the sleep(1.0)
  between the two sends, as an explicit event list.

Fallible steps are explicit: fetch outcomes arrive as a FetchResult, and a
payload whose bytes json.loads rejects is FetchResult.success none, since
the source has no try/except around loads - the ValueError escapes
handle_command_live, modelled as Except.error.
-/

/-- A JSON value as json.loads returns it.  Numbers are integers here: every
number the claims touch (viewer counts) is integral in the sources'
payloads. -/
inductive Json where
  | null
  | bool (b : Bool)
  | num (n : Int)
  | str (s : String)
  | arr (elems : List Json)
  | obj (fields : List (String × Json))

/-- Python truthiness of a JSON value: None, False, 0, "", [] and an empty
dict are falsy, everything else is truthy (the source tests a channel value
with "if not channel"). -/
def Json.truthy : Json → Bool
  | Json.null => false
  | Json.bool b => b
  | Json.num n => n != 0
  | Json.str s => !s.isEmpty
  | Json.arr elems => !elems.isEmpty
  | Json.obj fields => !fields.isEmpty

/-- dict.get(key, default): the value stored under the key, or the default
when the key is absent.  The source only calls .get on decoded dicts; a
non-dict receiver would raise AttributeError in Python and is outside every
claim's inputs, so it also yields the default here. -/
def Json.get (j : Json) (key : String) (dflt : Json) : Json :=
  match j with
  | Json.obj fields => (List.lookup key fields).getD dflt
  | _ => dflt

/-- str() of a scalar JSON value, as str.format renders it into a message
body.  Container values never occur as the leaves the source formats and
render as the empty string here. -/
def pyScalarStr : Json → String
  | Json.null => "None"
  | Json.bool true => "True"
  | Json.bool false => "False"
  | Json.num n => toString n
  | Json.str s => s
  | Json.arr _ => ""
  | Json.obj _ => ""

/-- channel.get(key, "N/A") followed by formatting: a missing leaf field
defaults to the "N/A" sentinel. -/
def getStrField (j : Json) (key : String) : String :=
  match j with
  | Json.obj fields =>
    match List.lookup key fields with
    | some v => pyScalarStr v
    | none => "N/A"
  | _ => "N/A"

/-- stream.get(key, 0) for the viewer count: a missing field defaults to 0.
A non-numeric value would later make Python's sort compare mixed types and
raise; no claim exercises that and it reads as 0 here. -/
def getIntField (j : Json) (key : String) : Int :=
  match j with
  | Json.obj fields =>
    match List.lookup key fields with
    | some (Json.num n) => n
    | some _ => 0
    | none => 0
  | _ => 0

/-- The uniform stream record the normalizers produce: display name,
description, link and viewer count. -/
structure StreamRecord where
  name : String
  desc : String
  url : String
  viewers : Int

/-- One Twitch element mapped to the uniform record shape
(channel.display_name, channel.status, channel.url, stream.viewers). -/
def extractTwitch (stream : Json) : StreamRecord :=
  let channel := stream.get "channel" Json.null
  ⟨getStrField channel "display_name", getStrField channel "status",
   getStrField channel "url", getIntField stream "viewers"⟩

/-- One Hitbox element mapped to the uniform record shape
(stream.media_display_name, stream.media_status, channel.channel_link,
stream.media_views). -/
def extractHitbox (stream : Json) : StreamRecord :=
  let channel := stream.get "channel" Json.null
  ⟨getStrField stream "media_display_name", getStrField stream "media_status",
   getStrField channel "channel_link", getIntField stream "media_views"⟩

/-- The Twitch element loop: an element whose channel value is falsy is
skipped (continue), every other element appends its record. -/
def normStreamsTwitch : List Json → List StreamRecord
  | [] => []
  | stream :: rest =>
    if (stream.get "channel" Json.null).truthy then
      extractTwitch stream :: normStreamsTwitch rest
    else
      normStreamsTwitch rest

/-- The Hitbox element loop, same skipping rule. -/
def normStreamsHitbox : List Json → List StreamRecord
  | [] => []
  | stream :: rest =>
    if (stream.get "channel" Json.null).truthy then
      extractHitbox stream :: normStreamsHitbox rest
    else
      normStreamsHitbox rest

/-- The elements of data.get(field, tuple()): an absent listing field or a
non-array value yields no elements. -/
def listElems : Json → List Json
  | Json.arr elems => elems
  | _ => []

/-- Normalize a decoded Twitch payload: iterate data.get("streams", ()). -/
def normTwitchPayload (data : Json) : List StreamRecord :=
  normStreamsTwitch (listElems (data.get "streams" (Json.arr [])))

/-- Normalize a decoded Hitbox payload: iterate data.get("livestream", ()). -/
def normHitboxPayload (data : Json) : List StreamRecord :=
  normStreamsHitbox (listElems (data.get "livestream" (Json.arr [])))

/-- Insertion into a descending-by-viewers list, placing the new record
before the first record with at most its viewer count; used through foldr
this is the stable descending sort that Python's
sorted(key=viewers, reverse=True) performs. -/
def insertByViewers (r : StreamRecord) : List StreamRecord → List StreamRecord
  | [] => [r]
  | x :: xs =>
    if x.viewers ≤ r.viewers then r :: x :: xs
    else x :: insertByViewers r xs

/-- sorted(streams, key=lambda x: x["viewers"], reverse=True): stable sort,
descending by viewer count. -/
def sortStreams (rs : List StreamRecord) : List StreamRecord :=
  rs.foldr insertByViewers []

/-- One outgoing groupchat message: the plain body (mbody) and the XHTML-IM
body (mhtml) passed to one send_message call. -/
structure OutgoingMessage where
  plain : String
  markup : String

/-- One digit as a string; the argument is always below 10 where this is
used. -/
def digitStr : Nat → String
  | 0 => "0"
  | 1 => "1"
  | 2 => "2"
  | 3 => "3"
  | 4 => "4"
  | 5 => "5"
  | 6 => "6"
  | 7 => "7"
  | 8 => "8"
  | 9 => "9"
  | _ + 10 => ""

/-- Decimal rendering of a natural number, as str.format renders the counts
and timestamp components.  The first argument is recursion fuel, always
sufficient at n + 1. -/
def natStrAux : Nat → Nat → String
  | 0, _ => ""
  | fuel + 1, n =>
    if n < 10 then digitStr n
    else natStrAux fuel (n / 10) ++ digitStr (n % 10)

/-- Decimal rendering of a natural number. -/
def natStr (n : Nat) : String :=
  natStrAux (n + 1) n

/-- Zero-padded two-digit rendering (%02d), as datetime.isoformat renders
month, day, hour, minute, second and the offset parts. -/
def pad2 (n : Nat) : String :=
  if n < 10 then "0" ++ natStr n else natStr n

/-- Zero-padded four-digit rendering of the year, as datetime.isoformat
renders it. -/
def pad4 (n : Nat) : String :=
  if n < 10 then "000" ++ natStr n
  else if n < 100 then "00" ++ natStr n
  else if n < 1000 then "0" ++ natStr n
  else natStr n

/-- desc.replace("\n", ""): every newline removed from a description before
it is formatted. -/
def stripNewlines (s : String) : String :=
  String.mk (s.data.filter (fun c => c != '\n'))

/-- The plain line written for the x-th displayed stream (x is 0-based, the
rendered index 1-based): #i: desc by name (url). -/
def streamLinePlain (x : Nat) (r : StreamRecord) : String :=
  "#" ++ natStr (x + 1) ++ ": " ++ stripNewlines r.desc ++ " by " ++ r.name
    ++ " (" ++ r.url ++ ")"

/-- The XHTML list item written for one displayed stream. -/
def streamLineHtml (r : StreamRecord) : String :=
  "<li><a href=\"" ++ r.url ++ "\">" ++ stripNewlines r.desc ++ " by <strong>"
    ++ r.name ++ "</strong></a></li>"

/-- The item loop over the plain StringIO: each line, a newline after every
line but the last. -/
def itemsPlain (x : Nat) : List StreamRecord → String
  | [] => ""
  | [r] => streamLinePlain x r
  | r :: rest => streamLinePlain x r ++ "\n" ++ itemsPlain (x + 1) rest

/-- The item loop over the XHTML StringIO: the list items concatenated. -/
def itemsHtml : List StreamRecord → String
  | [] => ""
  | r :: rest => streamLineHtml r ++ itemsHtml rest

/-- The banner sentence written to the plain buffer, selected by the stream
count exactly as the source's if/elif chain does. -/
def bannerPlain (site url : String) (n : Nat) : String :=
  if n = 0 then
    "There are no Planetary Annihilation streams on " ++ site
      ++ " at the moment."
  else if 5 < n then
    "There currently are " ++ natStr n ++ " PA streams on " ++ site
      ++ ". For a full list visit " ++ url ++ ". Five most viewed streams:\n"
  else if 1 < n then
    "There currently are " ++ natStr n ++ " PA streams on " ++ site ++ ":\n"
  else
    "There currently is one PA stream on " ++ site ++ ":\n"

/-- The banner sentence written to the XHTML buffer. -/
def bannerHtml (site url : String) (n : Nat) : String :=
  if n = 0 then
    "There are no Planetary Annihilation streams on <a href=\"" ++ url
      ++ "\">" ++ site ++ "</a> at the moment."
  else if 5 < n then
    "There currently are <strong>" ++ natStr n ++ "</strong> PA streams on <a href=\""
      ++ url ++ "\">" ++ site ++ "</a>. Five most viewed streams:<br/>"
  else if 1 < n then
    "There currently are <strong>" ++ natStr n ++ "</strong> PA streams on "
      ++ site ++ ":<br/>"
  else
    "There currently is <strong>one</strong> PA stream on " ++ site ++ ":<br/>"

/-- The number of displayed items: the source overwrites nofs with 5 in the
greater-than-5 branch and then loops over range(nofs). -/
def displayedCount (n : Nat) : Nat :=
  if 5 < n then 5 else n

/-- The single outgoing message one source's block builds: banner plus item
lines in the plain buffer, banner plus an ol-wrapped item list in the XHTML
buffer. -/
def summaryMessage (site url : String) (streams : List StreamRecord) : OutgoingMessage :=
  let n := streams.length
  let shown := streams.take (displayedCount n)
  ⟨bannerPlain site url n ++ itemsPlain 0 shown,
   bannerHtml site url n
     ++ (if shown.isEmpty then "" else "<ol>" ++ itemsHtml shown ++ "</ol>")⟩

def twitchSite : String := "Twitch.tv"

def twitchBrowseUrl : String :=
  "http://www.twitch.tv/directory/game/Planetary%20Annihilation"

def hitboxSite : String := "Hitbox.tv"

def hitboxBrowseUrl : String :=
  "http://www.hitbox.tv/browse/planetary-annihilation"

/-- Whether a year is a Gregorian leap year. -/
def isLeap (y : Nat) : Bool :=
  y % 4 == 0 && (y % 100 != 0 || y % 400 == 0)

def daysInYear (y : Nat) : Nat :=
  if isLeap y then 366 else 365

def daysInMonth (y m : Nat) : Nat :=
  if m == 2 then (if isLeap y then 29 else 28)
  else if m == 4 || m == 6 || m == 9 || m == 11 then 30
  else 31

/-- Days in the years [start, start + k). -/
def sumYears : Nat → Nat → Nat
  | 0, _ => 0
  | k + 1, start => daysInYear start + sumYears k (start + 1)

/-- Days in the months [m, m + k) of year y. -/
def sumMonths : Nat → Nat → Nat → Nat
  | 0, _, _ => 0
  | k + 1, y, m => daysInMonth y m + sumMonths k y (m + 1)

/-- Days between 1970-01-01 and the given date (year ≥ 1970, month and day
1-based). -/
def daysFromCivil (y m d : Nat) : Nat :=
  sumYears (y - 1970) 1970 + sumMonths (m - 1) y 1 + (d - 1)

/-- Seconds between the Unix epoch and a given UTC date and time. -/
def epochOfUTC (y m d h mi s : Nat) : Nat :=
  daysFromCivil y m d * 86400 + h * 3600 + mi * 60 + s

/-- Split days since 1970-01-01 into a year and a 0-based day of year; the
first argument is recursion fuel, always sufficient at days + 1. -/
def yearSplit : Nat → Nat → Nat → Nat × Nat
  | 0, y, d => (y, d)
  | fuel + 1, y, d =>
    if d < daysInYear y then (y, d)
    else yearSplit fuel (y + 1) (d - daysInYear y)

/-- Split a 0-based day of year into a 1-based month and a 0-based day of
month; 12 fuel steps always suffice. -/
def monthSplit : Nat → Nat → Nat → Nat → Nat × Nat
  | 0, _, m, d => (m, d)
  | fuel + 1, y, m, d =>
    if d < daysInMonth y m then (m, d)
    else monthSplit fuel y (m + 1) (d - daysInMonth y m)

/-- The civil date (year, month, day) of a day count since 1970-01-01. -/
def dateOfDays (days : Nat) : Nat × Nat × Nat :=
  let p := yearSplit (days + 1) 1970 days
  let q := monthSplit 12 p.1 1 p.2
  (p.1, q.1, q.2 + 1)

/-- 0 = Sunday; 1970-01-01 was a Thursday. -/
def dayOfWeek (days : Nat) : Nat :=
  (days + 4) % 7

/-- Day of month of the first Sunday of a month. -/
def firstSundayDom (y m : Nat) : Nat :=
  1 + (7 - dayOfWeek (daysFromCivil y m 1)) % 7

/-- Day of month of the second Sunday of a month. -/
def secondSundayDom (y m : Nat) : Nat :=
  firstSundayDom y m + 7

/-- Whether US/Pacific daylight saving is in effect at a UTC instant.
Modelled from the IANA rule for US/Pacific in effect since 2007 (the tz
data the source consumes through pytz): DST runs from 10:00 UTC on the
second Sunday of March to 09:00 UTC on the first Sunday of November. -/
def pacificIsDST (t : Nat) : Bool :=
  let y := (dateOfDays (t / 86400)).1
  let dstStart := epochOfUTC y 3 (secondSundayDom y 3) 10 0 0
  let dstEnd := epochOfUTC y 11 (firstSundayDom y 11) 9 0 0
  dstStart ≤ t && t < dstEnd

/-- The US/Pacific UTC offset in minutes at a UTC instant: -420 under DST,
else -480. -/
def pacificOffsetMinutes (t : Nat) : Int :=
  if pacificIsDST t then -420 else -480

/-- An aware Python datetime truncated to whole seconds: the civil fields
plus the tzinfo's UTC offset in minutes. -/
structure PyDateTime where
  year : Nat
  month : Nat
  day : Nat
  hour : Nat
  minute : Nat
  second : Nat
  offsetMinutes : Int

/-- The aware datetime whose local clock reads the given seconds-since-epoch
value, carrying the given offset. -/
def dtOfLocalSeconds (localSecs : Nat) (offMin : Int) : PyDateTime :=
  let days := localSecs / 86400
  let rem := localSecs % 86400
  let ymd := dateOfDays days
  ⟨ymd.1, ymd.2.1, ymd.2.2, rem / 3600, rem % 3600 / 60, rem % 60, offMin⟩

/-- datetime.utcnow().replace(microsecond=0, tzinfo=utc) at UTC instant t
(seconds since the epoch; the microsecond truncation is the restriction to
whole seconds). -/
def utcFromEpoch (t : Nat) : PyDateTime :=
  dtOfLocalSeconds t 0

/-- now.astimezone(timezone("US/Pacific")): the same instant under the
US/Pacific offset. -/
def pacificFromEpoch (t : Nat) : PyDateTime :=
  let off := pacificOffsetMinutes t
  dtOfLocalSeconds ((t : Int) + off * 60).toNat off

/-- The +HH:MM or -HH:MM suffix isoformat appends for an aware datetime. -/
def offsetStr (offMin : Int) : String :=
  let a := offMin.natAbs
  (if offMin < 0 then "-" else "+") ++ pad2 (a / 60) ++ ":" ++ pad2 (a % 60)

/-- datetime.isoformat(" ") for a whole-second aware datetime: date, a
space, time, offset. -/
def isoformatSpace (dt : PyDateTime) : String :=
  pad4 dt.year ++ "-" ++ pad2 dt.month ++ "-" ++ pad2 dt.day ++ " "
    ++ pad2 dt.hour ++ ":" ++ pad2 dt.minute ++ ":" ++ pad2 dt.second
    ++ offsetStr dt.offsetMinutes

/-- handle_command_now's outgoing message at UTC instant t. -/
def handle_command_now (t : Nat) : OutgoingMessage :=
  let nowStr := isoformatSpace (utcFromEpoch t)
  let ubernowStr := isoformatSpace (pacificFromEpoch t)
  ⟨"It is now " ++ nowStr ++ " (UTC) / " ++ ubernowStr ++ " (Ubertime)",
   "It is now <strong>" ++ nowStr ++ "</strong> (UTC) / <strong>"
     ++ ubernowStr ++ "</strong> (Ubertime)"⟩

/-- The outcome of one source's fetch future as handle_command_live sees
it: failure when the future holds an exception, otherwise the payload's
decode result - some when json.loads accepts the UTF-8 text, none when it
raises (malformed payload). -/
inductive FetchResult where
  | failure
  | success (decoded : Option Json)

/-- One source's block up to its sorted stream list: a fetch failure leaves
the list empty; on success the payload is decoded - loads raising escapes
the handler (error) - then normalized and sorted. -/
def decodeSource (fr : FetchResult) (normalizePayload : Json → List StreamRecord) :
    Except Unit (List StreamRecord) :=
  match fr with
  | FetchResult.failure => Except.ok []
  | FetchResult.success none => Except.error ()
  | FetchResult.success (some payload) =>
      Except.ok (sortStreams (normalizePayload payload))

/-- The stream list a source contributes when no decode error aborts the
handler. -/
def recordsOfSource (fr : FetchResult) (normalizePayload : Json → List StreamRecord) :
    List StreamRecord :=
  match fr with
  | FetchResult.failure => []
  | FetchResult.success none => []
  | FetchResult.success (some payload) => sortStreams (normalizePayload payload)

/-- One observable emission of a handler: a send_message call or a sleep of
some whole seconds. -/
inductive Emit where
  | send (m : OutgoingMessage)
  | sleep (seconds : Nat)

/-- handle_command_live as an emission trace: both payloads are decoded
first (either loads raising aborts the handler before any send), then the
Twitch summary is sent, sleep(1.0) runs, and the Hitbox summary is sent. -/
def handle_command_live (tw hb : FetchResult) : Except Unit (List Emit) :=
  match decodeSource tw normTwitchPayload, decodeSource hb normHitboxPayload with
  | Except.ok tws, Except.ok hbs =>
      Except.ok
        [Emit.send (summaryMessage twitchSite twitchBrowseUrl tws),
         Emit.sleep 1,
         Emit.send (summaryMessage hitboxSite hitboxBrowseUrl hbs)]
  | Except.error e, _ => Except.error e
  | _, Except.error e => Except.error e

/-- An incoming groupchat message as handle_muc_message reads it. -/
structure MucMessage where
  mucnick : String
  mucroom : String
  body : String

/-- The external inputs one dispatch may consume: the current UTC instant
for !now and the two fetch outcomes for !live. -/
structure BotEnv where
  nowEpoch : Nat
  twitchFetch : FetchResult
  hitboxFetch : FetchResult

/-- message.startswith("!"): whether the body's first character is the
command marker. -/
def startsWithMarker (s : String) : Bool :=
  match s.data with
  | [] => false
  | c :: _ => c == '!'

/-- handle_muc_message: drop own messages, drop bodies without the "!"
marker, split on single spaces, strip the marker from the first token and
dispatch to handle_command_<name> when such a handler exists. -/
def handle_muc_message (selfNick : String) (env : BotEnv) (msg : MucMessage) :
    Except Unit (List Emit) :=
  if msg.mucnick = selfNick then Except.ok []
  else if startsWithMarker msg.body = false then Except.ok []
  else
    let parts := msg.body.splitOn " "
    let command := parts.headD ""
    let commandName := command.drop 1
    if commandName = "now" then
      Except.ok [Emit.send (handle_command_now env.nowEpoch)]
    else if commandName = "live" then
      handle_command_live env.twitchFetch env.hitboxFetch
    else Except.ok []

/-- The messages sent along a trace. -/
def sentMessages (tr : List Emit) : List OutgoingMessage :=
  tr.filterMap (fun e =>
    match e with
    | Emit.send m => some m
    | Emit.sleep _ => none)

/-- How many sends a handler outcome performs (none when it raised). -/
def msgCountOf : Except Unit (List Emit) → Nat
  | Except.error _ => 0
  | Except.ok tr => (sentMessages tr).length

/-- Whether every pair of consecutive sends in a trace has at least one
second of sleep between them; the accumulator carries the sleep seconds
seen since the previous send (saturated at the start so the first send is
unconstrained). -/
def spacedOkAux : List Emit → Nat → Bool
  | [], _ => true
  | Emit.sleep s :: rest, acc => spacedOkAux rest (acc + s)
  | Emit.send _ :: rest, acc =>
    if 1 ≤ acc then spacedOkAux rest 0 else false

def spacedOk (tr : List Emit) : Bool :=
  spacedOkAux tr 1

/-- Tag stripper for the parity property, following the spec's words: every
maximal <...> run (anchor, bold, list and line-break tags) is deleted from
the markup body. -/
def stripTagsAux : List Char → Bool → List Char
  | [], _ => []
  | c :: cs, true => if c == '>' then stripTagsAux cs false else stripTagsAux cs true
  | c :: cs, false => if c == '<' then stripTagsAux cs true else c :: stripTagsAux cs false

/-- Modelled from the spec: "stripping markup tags from markupBody"; no
such function exists in the source, it is the spec's comparison side. -/
def stripMarkupTags (s : String) : String :=
  String.mk (stripTagsAux s.data false)

/-- The item lines of a displayed list, with their 0-based starting index:
the lines the plain item loop writes, as a list. -/
def plainLines (x : Nat) : List StreamRecord → List String
  | [] => []
  | r :: rest => streamLinePlain x r :: plainLines (x + 1) rest

/-- Lines joined by single newlines (a newline after every line but the
last). -/
def joinNL : List String → String
  | [] => ""
  | [l] => l
  | l :: rest => l ++ "\n" ++ joinNL rest

/-- C1 counterexample: with Twitch fetched fine and the Hitbox payload
malformed (json.loads raises), handle_command_live aborts with the escaped
error and performs zero sends - the room receives no "no streams" message
for either source. -/
theorem c1_decode_failure_escapes :
    handle_command_live (FetchResult.success (some (Json.obj [])))
        (FetchResult.success none) = Except.error () ∧
    msgCountOf (handle_command_live (FetchResult.success (some (Json.obj [])))
        (FetchResult.success none)) = 0 :=
  ⟨rfl, rfl⟩

/-- C1 (amended): only fetch failures are contained at the source boundary
(source treated as empty, a well-formed "no streams" message still sent per
source, even when both fetches fail); a decode failure is not contained -
json.loads raising aborts the handler, whichever source it hits, and no
message reaches the room. -/
theorem c1_fetch_vs_decode_containment :
    (∀ hb, handle_command_live (FetchResult.success none) hb = Except.error ()) ∧
    (∀ tw, handle_command_live tw (FetchResult.success none) = Except.error ()) ∧
    handle_command_live FetchResult.failure FetchResult.failure =
      Except.ok
        [Emit.send (summaryMessage twitchSite twitchBrowseUrl []),
         Emit.sleep 1,
         Emit.send (summaryMessage hitboxSite hitboxBrowseUrl [])] ∧
    (summaryMessage twitchSite twitchBrowseUrl []).plain =
      "There are no Planetary Annihilation streams on Twitch.tv at the moment." ∧
    (summaryMessage hitboxSite hitboxBrowseUrl []).plain =
      "There are no Planetary Annihilation streams on Hitbox.tv at the moment." := by
  refine ⟨fun hb => ?_, fun tw => ?_, rfl, by decide, by decide⟩
  · cases hb with
    | failure => rfl
    | success o =>
      cases o with
      | none => rfl
      | some j => rfl
  · cases tw with
    | failure => rfl
    | success o =>
      cases o with
      | none => rfl
      | some j => rfl

/-- C7 counterexample: at UTC instant 2024-01-01T12:00:00Z the code's !now
body carries the Pacific timestamp 2024-01-01 04:00:00-08:00, not the
claimed 2023-12-31 date. -/
theorem c7_example_date_wrong :
    (handle_command_now (epochOfUTC 2024 1 1 12 0 0)).plain ≠
      "It is now 2024-01-01 12:00:00+00:00 (UTC) / 2023-12-31 04:00:00-08:00 (Ubertime)" := by
  decide

/-- C7 (amended): the !now plain body renders the UTC instant and its
US/Pacific conversion, whole seconds, ISO-8601 with a space separator, as
"It is now utc (UTC) / pacific (Ubertime)"; at 2024-01-01T12:00:00Z the
body equals "It is now 2024-01-01 12:00:00+00:00 (UTC) /
2024-01-01 04:00:00-08:00 (Ubertime)" (same calendar day, eight hours
earlier). -/
theorem c7_now_format :
    (∀ t, (handle_command_now t).plain =
      "It is now " ++ isoformatSpace (utcFromEpoch t) ++ " (UTC) / "
        ++ isoformatSpace (pacificFromEpoch t) ++ " (Ubertime)") ∧
    (handle_command_now (epochOfUTC 2024 1 1 12 0 0)).plain =
      "It is now 2024-01-01 12:00:00+00:00 (UTC) / 2024-01-01 04:00:00-08:00 (Ubertime)" :=
  ⟨fun _ => rfl, by decide⟩

/-- C8: a message from the bot's own nickname, or one whose body does not
start with the "!" marker, is dropped with no outgoing sends. -/
theorem c8_ignore_self_and_noncommand (selfNick : String) (env : BotEnv)
    (msg : MucMessage)
    (h : msg.mucnick = selfNick ∨ startsWithMarker msg.body = false) :
    handle_muc_message selfNick env msg = Except.ok [] := by
  rcases h with h | h
  · simp [handle_muc_message, h]
  · simp [handle_muc_message, h]

theorem c8_witness :
    handle_muc_message "bot" ⟨0, FetchResult.failure, FetchResult.failure⟩
      ⟨"bot", "room", "!live"⟩ = Except.ok [] :=
  c8_ignore_self_and_noncommand "bot" _ _ (Or.inl rfl)

/-- C10: an element whose channel value is falsy is skipped exactly like an
element with no channel key - the loops test the fetched value's
truthiness, not the key's presence. -/
theorem c10_falsy_channel_skipped (stream : Json) (rest : List Json)
    (h : (stream.get "channel" Json.null).truthy = false) :
    normStreamsTwitch (stream :: rest) = normStreamsTwitch rest ∧
    normStreamsHitbox (stream :: rest) = normStreamsHitbox rest := by
  constructor <;> simp [normStreamsTwitch, normStreamsHitbox, h]

theorem c10_witness :
    normStreamsTwitch [Json.obj [("channel", Json.obj [])]] = normStreamsTwitch [] ∧
    normStreamsHitbox [Json.obj [("channel", Json.obj [])]] = normStreamsHitbox [] :=
  c10_falsy_channel_skipped (Json.obj [("channel", Json.obj [])]) []
    (by decide)

/-- C6: an absent listing field yields the empty sequence; the element
loops keep exactly the elements with a truthy channel, in order, mapping
each through the per-source extractor; and a retained element with missing
leaf fields gets the "N/A"/0 defaults. -/
theorem c6_normalizer_shape :
    (∀ fields, List.lookup "streams" fields = none →
      normTwitchPayload (Json.obj fields) = []) ∧
    (∀ fields, List.lookup "livestream" fields = none →
      normHitboxPayload (Json.obj fields) = []) ∧
    (∀ elems, normStreamsTwitch elems =
      (elems.filter (fun s => (Json.get s "channel" Json.null).truthy)).map
        extractTwitch) ∧
    (∀ elems, normStreamsHitbox elems =
      (elems.filter (fun s => (Json.get s "channel" Json.null).truthy)).map
        extractHitbox) ∧
    extractTwitch (Json.obj [("channel", Json.obj [("irrelevant", Json.num 1)])]) =
      ⟨"N/A", "N/A", "N/A", 0⟩ ∧
    extractHitbox (Json.obj [("channel", Json.obj [("irrelevant", Json.num 1)])]) =
      ⟨"N/A", "N/A", "N/A", 0⟩ := by
  refine ⟨?_, ?_, ?_, ?_, rfl, rfl⟩
  · intro fields h
    simp [normTwitchPayload, Json.get, h, listElems, normStreamsTwitch]
  · intro fields h
    simp [normHitboxPayload, Json.get, h, listElems, normStreamsHitbox]
  · intro elems
    induction elems with
    | nil => rfl
    | cons s rest ih =>
      by_cases h : (Json.get s "channel" Json.null).truthy = true
      · simp [normStreamsTwitch, h, ih]
      · simp [normStreamsTwitch, ih, h]
  · intro elems
    induction elems with
    | nil => rfl
    | cons s rest ih =>
      by_cases h : (Json.get s "channel" Json.null).truthy = true
      · simp [normStreamsHitbox, h, ih]
      · simp [normStreamsHitbox, ih, h]

theorem c6_witness :
    normTwitchPayload (Json.obj [("other", Json.num 1)]) = [] ∧
    normHitboxPayload (Json.obj [("other", Json.num 1)]) = [] ∧
    normStreamsTwitch [Json.obj []] =
      (([Json.obj []]).filter
        (fun s => (Json.get s "channel" Json.null).truthy)).map extractTwitch :=
  ⟨c6_normalizer_shape.1 _ rfl, c6_normalizer_shape.2.1 _ rfl,
   c6_normalizer_shape.2.2.1 _⟩

theorem mem_insertByViewers {y r : StreamRecord} {l : List StreamRecord}
    (h : y ∈ insertByViewers r l) : y = r ∨ y ∈ l := by
  induction l with
  | nil => simpa [insertByViewers] using h
  | cons x xs ih =>
    by_cases hc : x.viewers ≤ r.viewers
    · simp only [insertByViewers] at h
      rw [if_pos hc] at h
      rcases List.mem_cons.mp h with h | h
      · exact Or.inl h
      · exact Or.inr h
    · simp only [insertByViewers] at h
      rw [if_neg hc] at h
      rcases List.mem_cons.mp h with h | h
      · exact Or.inr (by simp [h])
      · rcases ih h with h | h
        · exact Or.inl h
        · exact Or.inr (List.mem_cons_of_mem x h)

theorem pairwise_insertByViewers {l : List StreamRecord} (r : StreamRecord)
    (h : List.Pairwise (fun a b => b.viewers ≤ a.viewers) l) :
    List.Pairwise (fun a b => b.viewers ≤ a.viewers) (insertByViewers r l) := by
  induction l with
  | nil => simp [insertByViewers]
  | cons x xs ih =>
    rcases List.pairwise_cons.mp h with ⟨hx, hxs⟩
    by_cases hc : x.viewers ≤ r.viewers
    · simp only [insertByViewers]
      rw [if_pos hc]
      refine List.pairwise_cons.mpr ⟨?_, h⟩
      intro y hy
      rcases List.mem_cons.mp hy with rfl | hy
      · exact hc
      · exact le_trans (hx y hy) hc
    · simp only [insertByViewers]
      rw [if_neg hc]
      refine List.pairwise_cons.mpr ⟨?_, ih hxs⟩
      intro y hy
      rcases mem_insertByViewers hy with rfl | hy
      · exact le_of_lt (lt_of_not_le hc)
      · exact hx y hy

theorem sortStreams_pairwise (rs : List StreamRecord) :
    List.Pairwise (fun a b => b.viewers ≤ a.viewers) (sortStreams rs) := by
  induction rs with
  | nil => simp [sortStreams]
  | cons r rest ih => exact pairwise_insertByViewers r ih

theorem filter_insertByViewers_eq {r : StreamRecord} {v : Int}
    (hr : r.viewers = v) (l : List StreamRecord) :
    (insertByViewers r l).filter (fun x => x.viewers == v) =
      r :: l.filter (fun x => x.viewers == v) := by
  have hrb : (r.viewers == v) = true := beq_iff_eq.mpr hr
  induction l with
  | nil => simp [insertByViewers, hrb]
  | cons x xs ih =>
    by_cases hc : x.viewers ≤ r.viewers
    · simp only [insertByViewers]
      rw [if_pos hc]
      simp [List.filter_cons, hrb]
    · have hx : (x.viewers == v) = false := by
        rw [beq_eq_false_iff_ne]
        omega
      simp only [insertByViewers]
      rw [if_neg hc]
      simp [List.filter_cons, hx, ih]

theorem filter_insertByViewers_ne {r : StreamRecord} {v : Int}
    (hr : ¬ r.viewers = v) (l : List StreamRecord) :
    (insertByViewers r l).filter (fun x => x.viewers == v) =
      l.filter (fun x => x.viewers == v) := by
  have hrb : (r.viewers == v) = false := beq_eq_false_iff_ne.mpr hr
  induction l with
  | nil => simp [insertByViewers, hrb]
  | cons x xs ih =>
    by_cases hc : x.viewers ≤ r.viewers
    · simp only [insertByViewers]
      rw [if_pos hc]
      simp [List.filter_cons, hrb]
    · simp only [insertByViewers]
      rw [if_neg hc]
      simp [List.filter_cons, ih]

theorem sortStreams_filter (rs : List StreamRecord) (v : Int) :
    (sortStreams rs).filter (fun x => x.viewers == v) =
      rs.filter (fun x => x.viewers == v) := by
  induction rs with
  | nil => rfl
  | cons r rest ih =>
    show (insertByViewers r (sortStreams rest)).filter _ = _
    by_cases hr : r.viewers = v
    · rw [filter_insertByViewers_eq hr, ih, List.filter_cons]
      simp [hr]
    · rw [filter_insertByViewers_ne hr, ih, List.filter_cons]
      simp [hr]

/-- C5: the per-source ranked sequence is sorted by viewer count descending
and the sort is stable - for every viewer count the records carrying it
appear in the sorted output exactly as they appear in the input. -/
theorem c5_sort_desc_stable (rs : List StreamRecord) :
    List.Pairwise (fun a b => b.viewers ≤ a.viewers) (sortStreams rs) ∧
    ∀ v : Int, (sortStreams rs).filter (fun x => x.viewers == v) =
      rs.filter (fun x => x.viewers == v) :=
  ⟨sortStreams_pairwise rs, fun v => sortStreams_filter rs v⟩

theorem plainLines_length (rs : List StreamRecord) :
    ∀ x, (plainLines x rs).length = rs.length := by
  induction rs with
  | nil => intro x; rfl
  | cons r rest ih =>
    intro x
    simp [plainLines, ih]

theorem itemsPlain_eq_joinNL (rs : List StreamRecord) :
    ∀ x, itemsPlain x rs = joinNL (plainLines x rs) := by
  induction rs with
  | nil => intro x; rfl
  | cons r rest ih =>
    intro x
    cases rest with
    | nil => rfl
    | cons s tl =>
      show streamLinePlain x r ++ "\n" ++ itemsPlain (x + 1) (s :: tl) =
        joinNL (plainLines x (r :: s :: tl))
      rw [ih (x + 1)]
      rfl

theorem plainLines_eq_mapIdx (rs : List StreamRecord) :
    ∀ x, plainLines x rs = rs.mapIdx (fun i r => streamLinePlain (x + i) r) := by
  induction rs with
  | nil => intro x; simp [plainLines]
  | cons r rest ih =>
    intro x
    have hf : (fun i (q : StreamRecord) => streamLinePlain (x + (i + 1)) q) =
        (fun i (q : StreamRecord) => streamLinePlain (x + 1 + i) q) := by
      funext i q
      rw [show x + (i + 1) = x + 1 + i by omega]
    calc plainLines x (r :: rest)
        = streamLinePlain x r :: plainLines (x + 1) rest := rfl
      _ = streamLinePlain x r
            :: rest.mapIdx (fun i q => streamLinePlain (x + 1 + i) q) := by
          rw [ih (x + 1)]
      _ = streamLinePlain x r
            :: rest.mapIdx (fun i q => streamLinePlain (x + (i + 1)) q) := by
          rw [hf]
      _ = (r :: rest).mapIdx (fun i q => streamLinePlain (x + i) q) := by
          rw [List.mapIdx_cons]
          rfl

/-- C4: the banner sentence is selected solely by the record count - 0
picks the "no streams" sentence, 1 the "one stream" sentence, 2 through 5
the "N streams" sentence, above 5 the "N streams ... five most viewed"
sentence - and above 5 exactly five detail items are rendered. -/
theorem c4_banner_selection (site url : String) (n : Nat)
    (rs : List StreamRecord) :
    (n = 0 → bannerPlain site url n =
      "There are no Planetary Annihilation streams on " ++ site
        ++ " at the moment.") ∧
    (n = 1 → bannerPlain site url n =
      "There currently is one PA stream on " ++ site ++ ":\n") ∧
    (2 ≤ n → n ≤ 5 → bannerPlain site url n =
      "There currently are " ++ natStr n ++ " PA streams on " ++ site
        ++ ":\n") ∧
    (5 < n → bannerPlain site url n =
      "There currently are " ++ natStr n ++ " PA streams on " ++ site
        ++ ". For a full list visit " ++ url
        ++ ". Five most viewed streams:\n") ∧
    (5 < rs.length →
      (summaryMessage site url rs).plain =
        bannerPlain site url rs.length ++ itemsPlain 0 (rs.take 5) ∧
      (plainLines 0 (rs.take (displayedCount rs.length))).length = 5) := by
  refine ⟨?_, ?_, ?_, ?_, ?_⟩
  · intro h
    subst h
    rfl
  · intro h
    subst h
    rfl
  · intro h2 h5
    unfold bannerPlain
    rw [if_neg (by omega), if_neg (by omega), if_pos (by omega)]
  · intro h
    unfold bannerPlain
    rw [if_neg (by omega), if_pos h]
  · intro h
    have hd : displayedCount rs.length = 5 := by
      unfold displayedCount
      rw [if_pos h]
    constructor
    · show bannerPlain site url rs.length
          ++ itemsPlain 0 (rs.take (displayedCount rs.length)) = _
      rw [hd]
    · rw [plainLines_length, List.length_take, hd]
      omega

theorem c4_witness :
    bannerPlain twitchSite twitchBrowseUrl 0 =
      "There are no Planetary Annihilation streams on " ++ twitchSite
        ++ " at the moment." ∧
    bannerPlain twitchSite twitchBrowseUrl 1 =
      "There currently is one PA stream on " ++ twitchSite ++ ":\n" ∧
    bannerPlain twitchSite twitchBrowseUrl 3 =
      "There currently are " ++ natStr 3 ++ " PA streams on " ++ twitchSite
        ++ ":\n" ∧
    bannerPlain twitchSite twitchBrowseUrl 6 =
      "There currently are " ++ natStr 6 ++ " PA streams on " ++ twitchSite
        ++ ". For a full list visit " ++ twitchBrowseUrl
        ++ ". Five most viewed streams:\n" ∧
    (plainLines 0 ((List.replicate 6 (⟨"n", "d", "u", 0⟩ : StreamRecord)).take
      (displayedCount (List.replicate 6 (⟨"n", "d", "u", 0⟩ : StreamRecord)).length))).length = 5 :=
  ⟨(c4_banner_selection twitchSite twitchBrowseUrl 0 []).1 rfl,
   (c4_banner_selection twitchSite twitchBrowseUrl 1 []).2.1 rfl,
   (c4_banner_selection twitchSite twitchBrowseUrl 3 []).2.2.1 (by omega) (by omega),
   (c4_banner_selection twitchSite twitchBrowseUrl 6 []).2.2.2.1 (by omega),
   ((c4_banner_selection twitchSite twitchBrowseUrl 0
      (List.replicate 6 ⟨"n", "d", "u", 0⟩)).2.2.2.2 (by decide)).2⟩

/-- C3 counterexample: with one valid record per source the code performs
two sends in total (one message per source, items folded into the banner
body), not the 1 + k messages per source the claim states (which would be
four here); and no plain body starts with "Stream #". -/
theorem c3_message_count_not_one_plus_k :
    msgCountOf (handle_command_live
      (FetchResult.success (some (Json.obj [("streams", Json.arr
        [Json.obj [("channel", Json.obj [("display_name", Json.str "alice"),
                    ("status", Json.str "playing"), ("url", Json.str "http://t/alice")]),
                  ("viewers", Json.num 12)]])])))
      (FetchResult.success (some (Json.obj [("livestream", Json.arr
        [Json.obj [("channel", Json.obj [("channel_link", Json.str "http://h/bob")]),
                  ("media_display_name", Json.str "bob"),
                  ("media_status", Json.str "stuff"),
                  ("media_views", Json.num 3)]])])))) = 2 ∧
    msgCountOf (handle_command_live
      (FetchResult.success (some (Json.obj [("streams", Json.arr
        [Json.obj [("channel", Json.obj [("display_name", Json.str "alice"),
                    ("status", Json.str "playing"), ("url", Json.str "http://t/alice")]),
                  ("viewers", Json.num 12)]])])))
      (FetchResult.success (some (Json.obj [("livestream", Json.arr
        [Json.obj [("channel", Json.obj [("channel_link", Json.str "http://h/bob")]),
                  ("media_display_name", Json.str "bob"),
                  ("media_status", Json.str "stuff"),
                  ("media_views", Json.num 3)]])])))) ≠ 4 := by
  constructor
  · rfl
  · decide

/-- C3 (amended): each source contributes exactly one outgoing message per
invocation (two sends per !live); its plain body is the banner followed by
the item lines joined with single newlines, the i-th line (1-based) being
"#i: description by name (link)" with newlines removed from the
description. -/
theorem c3_single_message_per_source :
    (∀ site url (streams : List StreamRecord), streams ≠ [] →
      (summaryMessage site url streams).plain =
        bannerPlain site url streams.length
          ++ joinNL (plainLines 0 (streams.take (displayedCount streams.length))) ∧
      plainLines 0 (streams.take (displayedCount streams.length)) =
        (streams.take (displayedCount streams.length)).mapIdx
          (fun i r => "#" ++ natStr (i + 1) ++ ": " ++ stripNewlines r.desc
            ++ " by " ++ r.name ++ " (" ++ r.url ++ ")")) ∧
    (∀ tw hb tr, handle_command_live tw hb = Except.ok tr →
      (sentMessages tr).length = 2) := by
  constructor
  · intro site url streams _
    constructor
    · show bannerPlain site url streams.length
          ++ itemsPlain 0 (streams.take (displayedCount streams.length)) = _
      rw [itemsPlain_eq_joinNL]
    · rw [plainLines_eq_mapIdx]
      have hf : (fun i (q : StreamRecord) => streamLinePlain (0 + i) q) =
          (fun i (q : StreamRecord) => "#" ++ natStr (i + 1) ++ ": "
            ++ stripNewlines q.desc ++ " by " ++ q.name ++ " (" ++ q.url ++ ")") := by
        funext i q
        rw [Nat.zero_add]
        rfl
      rw [hf]
  · intro tw hb tr h
    cases htw : decodeSource tw normTwitchPayload with
    | error e =>
      cases hhb : decodeSource hb normHitboxPayload with
      | error e2 =>
        rw [handle_command_live, htw, hhb] at h
        cases h
      | ok hbs =>
        rw [handle_command_live, htw, hhb] at h
        cases h
    | ok tws =>
      cases hhb : decodeSource hb normHitboxPayload with
      | error e =>
        rw [handle_command_live, htw, hhb] at h
        cases h
      | ok hbs =>
        rw [handle_command_live, htw, hhb] at h
        cases h
        rfl

theorem c3_witness :
    ((summaryMessage twitchSite twitchBrowseUrl [⟨"alice", "playing", "http://t/alice", 12⟩]).plain =
      bannerPlain twitchSite twitchBrowseUrl
          [(⟨"alice", "playing", "http://t/alice", 12⟩ : StreamRecord)].length
        ++ joinNL (plainLines 0
          ([(⟨"alice", "playing", "http://t/alice", 12⟩ : StreamRecord)].take
            (displayedCount [(⟨"alice", "playing", "http://t/alice", 12⟩ : StreamRecord)].length))) ∧
     plainLines 0 ([(⟨"alice", "playing", "http://t/alice", 12⟩ : StreamRecord)].take
        (displayedCount [(⟨"alice", "playing", "http://t/alice", 12⟩ : StreamRecord)].length)) =
      ([(⟨"alice", "playing", "http://t/alice", 12⟩ : StreamRecord)].take
        (displayedCount [(⟨"alice", "playing", "http://t/alice", 12⟩ : StreamRecord)].length)).mapIdx
        (fun i r => "#" ++ natStr (i + 1) ++ ": " ++ stripNewlines r.desc
          ++ " by " ++ r.name ++ " (" ++ r.url ++ ")")) ∧
    (sentMessages [Emit.send (summaryMessage twitchSite twitchBrowseUrl []),
      Emit.sleep 1, Emit.send (summaryMessage hitboxSite hitboxBrowseUrl [])]).length = 2 :=
  ⟨c3_single_message_per_source.1 twitchSite twitchBrowseUrl
      [⟨"alice", "playing", "http://t/alice", 12⟩] (by simp),
   c3_single_message_per_source.2 FetchResult.failure FetchResult.failure _ rfl⟩

theorem handle_command_live_ok_shape (tw hb : FetchResult) (tr : List Emit)
    (h : handle_command_live tw hb = Except.ok tr) :
    tr = [Emit.send (summaryMessage twitchSite twitchBrowseUrl
            (recordsOfSource tw normTwitchPayload)),
          Emit.sleep 1,
          Emit.send (summaryMessage hitboxSite hitboxBrowseUrl
            (recordsOfSource hb normHitboxPayload))] := by
  rcases tw with _ | (_ | j) <;> rcases hb with _ | (_ | k) <;> cases h <;> rfl

/-- C9: a !live invocation's emissions are fully determined and ordered -
the Twitch summary send, one second of sleep, the Hitbox summary send, each
summary's body opening with its banner - and every successful dispatch's
trace keeps at least one second of sleep between consecutive sends. -/
theorem c9_emission_order_and_spacing :
    (∀ selfNick env msg tr,
      handle_muc_message selfNick env msg = Except.ok tr → spacedOk tr = true) ∧
    (∀ tw hb tr, handle_command_live tw hb = Except.ok tr →
      tr = [Emit.send (summaryMessage twitchSite twitchBrowseUrl
              (recordsOfSource tw normTwitchPayload)),
            Emit.sleep 1,
            Emit.send (summaryMessage hitboxSite hitboxBrowseUrl
              (recordsOfSource hb normHitboxPayload))]) := by
  constructor
  · intro selfNick env msg tr h
    simp only [handle_muc_message] at h
    split at h
    · cases h
      rfl
    · split at h
      · cases h
        rfl
      · split at h
        · cases h
          rfl
        · split at h
          · rw [handle_command_live_ok_shape _ _ _ h]
            rfl
          · cases h
            rfl
  · exact handle_command_live_ok_shape

theorem c9_witness :
    spacedOk [] = true ∧
    [Emit.send (summaryMessage twitchSite twitchBrowseUrl []), Emit.sleep 1,
     Emit.send (summaryMessage hitboxSite hitboxBrowseUrl [])] =
      [Emit.send (summaryMessage twitchSite twitchBrowseUrl
          (recordsOfSource FetchResult.failure normTwitchPayload)),
       Emit.sleep 1,
       Emit.send (summaryMessage hitboxSite hitboxBrowseUrl
          (recordsOfSource FetchResult.failure normHitboxPayload))] :=
  ⟨c9_emission_order_and_spacing.1 "bot"
      ⟨0, FetchResult.failure, FetchResult.failure⟩ ⟨"bot", "room", "hello"⟩ []
      (by simp [handle_muc_message]),
   c9_emission_order_and_spacing.2 FetchResult.failure FetchResult.failure _ rfl⟩

theorem data_append (s t : String) : (s ++ t).data = s.data ++ t.data := rfl

theorem digitStr_clean : ∀ n, ((digitStr n).data.all (fun c => c != '<')) = true
  | 0 => by decide
  | 1 => by decide
  | 2 => by decide
  | 3 => by decide
  | 4 => by decide
  | 5 => by decide
  | 6 => by decide
  | 7 => by decide
  | 8 => by decide
  | 9 => by decide
  | _ + 10 => by rfl

theorem natStrAux_clean : ∀ fuel n, ((natStrAux fuel n).data.all (fun c => c != '<')) = true := by
  intro fuel
  induction fuel with
  | zero => intro n; rfl
  | succ f ih =>
    intro n
    simp only [natStrAux]
    split
    · exact digitStr_clean n
    · rw [data_append, List.all_append, ih (n / 10), digitStr_clean]
      rfl

theorem natStr_clean (n : Nat) : ((natStr n).data.all (fun c => c != '<')) = true :=
  natStrAux_clean (n + 1) n

theorem pad2_clean (n : Nat) : ((pad2 n).data.all (fun c => c != '<')) = true := by
  simp only [pad2]
  split
  · rw [data_append, List.all_append, natStr_clean]
    decide
  · exact natStr_clean n

theorem pad4_clean (n : Nat) : ((pad4 n).data.all (fun c => c != '<')) = true := by
  simp only [pad4]
  split
  · rw [data_append, List.all_append, natStr_clean]
    decide
  · split
    · rw [data_append, List.all_append, natStr_clean]
      decide
    · split
      · rw [data_append, List.all_append, natStr_clean]
        decide
      · exact natStr_clean n

theorem offsetStr_clean (off : Int) : ((offsetStr off).data.all (fun c => c != '<')) = true := by
  simp only [offsetStr, data_append, List.all_append, pad2_clean, Bool.and_true, Bool.true_and]
  split <;> decide

theorem iso_clean (dt : PyDateTime) :
    ((isoformatSpace dt).data.all (fun c => c != '<')) = true := by
  simp only [isoformatSpace, data_append, List.all_append, pad2_clean, pad4_clean,
    offsetStr_clean, Bool.and_true, Bool.true_and]
  decide

theorem keep_clean : ∀ l : List Char, l.all (fun c => c != '<') = true →
    ∀ cs, stripTagsAux (l ++ cs) false = l ++ stripTagsAux cs false := by
  intro l
  induction l with
  | nil => intro _ cs; rfl
  | cons c l ih =>
    intro h cs
    simp only [List.all_cons, Bool.and_eq_true] at h
    cases hcc : c == '<' with
    | true =>
      exfalso
      have hc := h.1
      rw [bne, hcc] at hc
      simp at hc
    | false =>
      show stripTagsAux (c :: (l ++ cs)) false = (c :: l) ++ stripTagsAux cs false
      simp [stripTagsAux, hcc, ih h.2 cs]

theorem consume_tag : ∀ l : List Char, l.all (fun c => c != '>') = true →
    ∀ cs, stripTagsAux (l ++ '>' :: cs) true = stripTagsAux cs false := by
  intro l
  induction l with
  | nil =>
    intro _ cs
    show stripTagsAux ('>' :: cs) true = stripTagsAux cs false
    simp [stripTagsAux]
  | cons c l ih =>
    intro h cs
    simp only [List.all_cons, Bool.and_eq_true] at h
    cases hcc : c == '>' with
    | true =>
      exfalso
      have hc := h.1
      rw [bne, hcc] at hc
      simp at hc
    | false =>
      show stripTagsAux (c :: (l ++ '>' :: cs)) true = stripTagsAux cs false
      simp [stripTagsAux, hcc, ih h.2 cs]

theorem strip_tag (inner : List Char) (h : inner.all (fun c => c != '>') = true) :
    ∀ cs, stripTagsAux ('<' :: (inner ++ '>' :: cs)) false = stripTagsAux cs false := by
  intro cs
  have h0 : stripTagsAux ('<' :: (inner ++ '>' :: cs)) false
      = stripTagsAux (inner ++ '>' :: cs) true := by
    simp [stripTagsAux]
  rw [h0]
  exact consume_tag inner h cs

theorem clean_id (l : List Char) (h : l.all (fun c => c != '<') = true) :
    stripTagsAux l false = l := by
  have hk := keep_clean l h []
  rw [List.append_nil] at hk
  simpa [stripTagsAux] using hk

theorem strip_now (a b : String)
    (ha : a.data.all (fun c => c != '<') = true)
    (hb : b.data.all (fun c => c != '<') = true) :
    stripMarkupTags ("It is now <strong>" ++ a ++ "</strong> (UTC) / <strong>"
        ++ b ++ "</strong> (Ubertime)")
      = "It is now " ++ a ++ " (UTC) / " ++ b ++ " (Ubertime)" := by
  have e1 : ∀ cs : List Char, ("It is now <strong>".data ++ cs) =
      "It is now ".data ++ ('<' :: ("strong".data ++ ('>' :: cs))) := fun cs => rfl
  have e2 : ∀ cs : List Char, ("</strong> (UTC) / <strong>".data ++ cs) =
      '<' :: ("/strong".data ++ ('>' :: (" (UTC) / ".data
        ++ ('<' :: ("strong".data ++ ('>' :: cs)))))) := fun cs => rfl
  refine congrArg String.mk ?_
  simp only [data_append, List.append_assoc]
  rw [e1, keep_clean ("It is now ".data) (by decide), strip_tag ("strong".data) (by decide),
    keep_clean _ ha, e2, strip_tag ("/strong".data) (by decide),
    keep_clean (" (UTC) / ".data) (by decide), strip_tag ("strong".data) (by decide),
    keep_clean _ hb]
  rw [show stripTagsAux ['<', '/', 's', 't', 'r', 'o', 'n', 'g', '>', ' ', '(', 'U',
      'b', 'e', 'r', 't', 'i', 'm', 'e', ')'] false
    = [' ', '(', 'U', 'b', 'e', 'r', 't', 'i', 'm', 'e', ')'] from by decide]

/-- C2 counterexample: for the one-stream Twitch summary, stripping the
markup tags from the markup body does not recover the plain body - the
plain body keeps the "#1:" index and the parenthesised link that the markup
body carries only inside tags. -/
theorem c2_parity_fails_with_items :
    stripMarkupTags (summaryMessage twitchSite twitchBrowseUrl
        [⟨"someone", "desc", "http://x", 3⟩]).markup ≠
      (summaryMessage twitchSite twitchBrowseUrl
        [⟨"someone", "desc", "http://x", 3⟩]).plain := by
  decide

/-- C2 (amended): plain/markup parity under tag stripping holds exactly for
the item-free messages - the n = 0 summary of either source and the !now
message (whose timestamps never contain a tag opener); the summaries with
items (n >= 1) violate it, as the counterexample shows. -/
theorem c2_markup_parity_restricted :
    stripMarkupTags (summaryMessage twitchSite twitchBrowseUrl []).markup =
      (summaryMessage twitchSite twitchBrowseUrl []).plain ∧
    stripMarkupTags (summaryMessage hitboxSite hitboxBrowseUrl []).markup =
      (summaryMessage hitboxSite hitboxBrowseUrl []).plain ∧
    ∀ t, stripMarkupTags (handle_command_now t).markup = (handle_command_now t).plain := by
  refine ⟨by decide, by decide, ?_⟩
  intro t
  exact strip_now (isoformatSpace (utcFromEpoch t)) (isoformatSpace (pacificFromEpoch t))
    (iso_clean _) (iso_clean _)
